import Mathlib

set_option autoImplicit false

namespace RdkafkaSys

/-!
Verification of the build/link configuration resolver of `rdkafka-sys`.

The crate root (`rdkafka-sys/src/lib.rs`) is embedded directly: the cfg-gated
`extern crate` declarations (lines 96-109) and the glob re-exports of the
`bindings`, `helpers` and `types` modules (lines 117-123).  The components the
specification describes beyond that file — the status code mapper
(`helpers::primive_to_rd_kafka_resp_err_t`), and the build-script resolver,
selector and emitter (`build.rs`) — are not among the sources, so they are
modelled from the specification, as marked on each definition.
-/

/-! ## Status Code Mapper -/

/-- Modelled from the spec: the enumerated error domain produced by the Status
Code Mapper (`helpers::primive_to_rd_kafka_resp_err_t` is not among the
sources).  `mapped c` stands for the non-catch-all variant the table assigns
to the catalog code `c`; `unknown c` is the single catch-all variant for codes
outside the catalog. -/
inductive ErrorKind where
  | mapped (code : Int) : ErrorKind
  | unknown (code : Int) : ErrorKind
deriving DecidableEq, Repr

/-- Whether an `ErrorKind` is the catch-all variant. -/
def ErrorKind.isCatchAll : ErrorKind → Bool
  | .mapped _ => false
  | .unknown _ => true

/-- Modelled from the spec: `toErrorKind(code: integer) -> ErrorKind`, built
over the fixed external catalog of native status codes (supplied as a list of
integers).  A code present in the catalog maps to its non-catch-all variant;
any other integer degrades to the catch-all. -/
def toErrorKind (catalog : List Int) (code : Int) : ErrorKind :=
  if code ∈ catalog then ErrorKind.mapped code else ErrorKind.unknown code

/-! ## Crate-root surface (`lib.rs`, embedded from the source) -/

/-- The optional sys-crate declarations of `lib.rs` lines 96-109: each
`extern crate` is gated by a `cfg(feature = ...)` attribute.  Given the set of
enabled feature flags, this is the list of extern crates the compiled crate
declares, in source order. -/
def externCrates (features : List String) : List String :=
  (if "openssl-sys" ∈ features then ["openssl_sys"] else []) ++
    (if "sasl2-sys" ∈ features then ["sasl2_sys"] else []) ++
      (if "libz-sys" ∈ features then ["libz_sys"] else []) ++
        (if "zstd-sys" ∈ features then ["zstd_sys"] else []) ++
          (if "lz4-sys" ∈ features then ["lz4_sys"] else [])

/-- A module surface: an association list from public item name to the
identity of the definition the name denotes. -/
abbrev Surface := List (String × Nat)

/-- Resolve an item name against a surface: the first binding wins, as with a
sequence of `pub use` re-exports. -/
def findItem : Surface → String → Option Nat
  | [], _ => none
  | (k, v) :: rest, n => if k = n then some v else findItem rest n

/-- `lib.rs` lines 121-123: `pub use bindings::*; pub use helpers::*;
pub use types::*` — the crate root surface is the three module surfaces
re-exported in source order. -/
def crateRoot (bindings helpers types : Surface) : Surface :=
  bindings ++ helpers ++ types

/-! ### Helper lemmas for association-list lookup -/

theorem findItem_append (xs ys : Surface) (n : String) :
    findItem (xs ++ ys) n =
      match findItem xs n with
      | some v => some v
      | none => findItem ys n := by
  induction xs with
  | nil => rfl
  | cons kv rest ih =>
    obtain ⟨k, v⟩ := kv
    by_cases h : k = n <;> simp [findItem, h, ih]

theorem findItem_some_imp_mem (xs : Surface) (n : String) (d : Nat)
    (h : findItem xs n = some d) : n ∈ xs.map Prod.fst := by
  induction xs with
  | nil => simp [findItem] at h
  | cons kv rest ih =>
    obtain ⟨k, v⟩ := kv
    by_cases hk : k = n
    · simp [hk]
    · simp [findItem, hk] at h
      simp [ih h]

theorem findItem_eq_none_of_not_mem (xs : Surface) (n : String)
    (h : n ∉ xs.map Prod.fst) : findItem xs n = none := by
  induction xs with
  | nil => rfl
  | cons kv rest ih =>
    obtain ⟨k, v⟩ := kv
    have hk : ¬ k = n := by
      intro he
      exact h (by simp [he])
    have hr : n ∉ rest.map Prod.fst := by
      intro hm
      exact h (by simp [hm])
    simp [findItem, hk, ih hr]

/-! ## Link Strategy Resolver (modelled from the spec) -/

/-- Modelled from the spec: the hardcoded default policy of an optional
dependency, recorded in the Capability Registry. -/
inductive Policy where
  | dynamicPreferred
  | staticPreferred
deriving DecidableEq, Repr

/-- Modelled from the spec: one Capability Registry row for an optional
native dependency — its name, its enabling flag, its optional force-static
and force-dynamic sub-flags, its default policy, and whether a vendored form
is available. -/
structure DepSpec where
  name : String
  enableFlag : String
  forceStaticFlag : Option String
  forceDynamicFlag : Option String
  defaultPolicy : Policy
  hasVendored : Bool
deriving DecidableEq, Repr

/-- Modelled from the spec: the resolved outcome for one optional
dependency. -/
inductive LinkDecision where
  | absent
  | dynamicSystem
  | staticVendored
deriving DecidableEq, Repr

/-- Modelled from the spec: the whole-library link kind of a Build Plan. -/
inductive LinkKind where
  | vendored
  | dynamicSystem
deriving DecidableEq, Repr

/-- Modelled from the spec: the configuration error taxonomy. -/
inductive ConfigError where
  | unknownFlag (name : String)
  | conflictingFlags (dep : String)
  | dependencyNotFound (dep : String)
  | noVendoredFormAvailable (dep : String)
  | incompatibleVersion (dep : String)
  | probeUnavailable (dep : String)
deriving DecidableEq, Repr

/-- Modelled from the spec: the result of probing the host for one
dependency. -/
structure ProbeResult where
  found : Bool
  version : Nat × Nat
  includePath : Option String
  libPath : Option String
deriving DecidableEq, Repr

/-- The environment snapshot: probe results keyed by dependency name. -/
abbrev Probe := String → ProbeResult

/-- Modelled from the spec: one Link Decision entry of a Build Plan, with the
probed library path when one was used. -/
structure PlanEntry where
  name : String
  decision : LinkDecision
  libPath : Option String
deriving DecidableEq, Repr

/-- Modelled from the spec: the Build Plan — whole-library link kind, probed
paths, and the ordered list of Link Decisions. -/
structure BuildPlan where
  wholeLinkKind : LinkKind
  wholeLibPath : Option String
  includePaths : List String
  entries : List PlanEntry
deriving DecidableEq, Repr

/-- The Link Decision a Build Plan records for a dependency name. -/
def BuildPlan.decisionFor (p : BuildPlan) (dep : String) : Option LinkDecision :=
  (p.entries.find? (fun e => e.name == dep)).map PlanEntry.decision

/-- Modelled from the spec: the fixed Capability Registry rows for the five
optional dependencies (OpenSSL via `ssl`/`ssl-vendored`, default dynamic;
libsasl2 via `gssapi`, system-only; zlib via `libz`/`libz-static`, default
dynamic; zstd via `zstd`/`zstd-pkg-config`, default static; lz4 via
`external-lz4`, static). -/
def fixedRegistry : List DepSpec :=
  [ { name := "openssl", enableFlag := "ssl", forceStaticFlag := some "ssl-vendored",
      forceDynamicFlag := none, defaultPolicy := .dynamicPreferred, hasVendored := true },
    { name := "libsasl2", enableFlag := "gssapi", forceStaticFlag := none,
      forceDynamicFlag := none, defaultPolicy := .dynamicPreferred, hasVendored := false },
    { name := "zlib", enableFlag := "libz", forceStaticFlag := some "libz-static",
      forceDynamicFlag := none, defaultPolicy := .dynamicPreferred, hasVendored := true },
    { name := "zstd", enableFlag := "zstd", forceStaticFlag := none,
      forceDynamicFlag := some "zstd-pkg-config", defaultPolicy := .staticPreferred,
      hasVendored := true },
    { name := "lz4", enableFlag := "external-lz4", forceStaticFlag := none,
      forceDynamicFlag := none, defaultPolicy := .staticPreferred, hasVendored := true } ]

/-- The flags a registry row contributes to the known-flag set. -/
def depFlags (d : DepSpec) : List String :=
  d.enableFlag :: (d.forceStaticFlag.toList ++ d.forceDynamicFlag.toList)

/-- Modelled from the spec: the Capability Registry's known flag names — the
two whole-build flags plus every dependency flag. -/
def knownFlags : List DepSpec → List String
  | [] => ["dynamic-linking", "cmake-build"]
  | d :: ds => depFlags d ++ knownFlags ds

/-- Whether an optional sub-flag is present in the flag set. -/
def subFlagSet (flags : List String) : Option String → Bool
  | none => false
  | some f => flags.contains f

/-- Whether both the force-static and the force-dynamic sub-flag of one
dependency are enabled — the `ConflictingFlags` condition. -/
def hasConflict (d : DepSpec) (flags : List String) : Bool :=
  match d.forceStaticFlag, d.forceDynamicFlag with
  | some fs, some fd => flags.contains fs && flags.contains fd
  | _, _ => false

/-- Modelled from the spec: step 1 of `resolve` — validate the flag set
against the registry before any probing, failing with `ConflictingFlags` when
some dependency has both sub-flags enabled, or with `UnknownFlag` when a flag
name is outside the known set. -/
def validateFlags (registry : List DepSpec) (flags : List String) :
    Option ConfigError :=
  match registry.find? (fun d => hasConflict d flags) with
  | some d => some (.conflictingFlags d.name)
  | none =>
    match flags.find? (fun f => !(knownFlags registry).contains f) with
    | some f => some (.unknownFlag f)
    | none => none

/-- The probe key for the wrapped library itself. -/
def wrappedLib : String := "librdkafka"

/-- Modelled from the spec: the minimum wrapped-library version this
resolver's catalog was built against. -/
def wrappedMinVersion : Nat × Nat := (1, 4)

/-- Whether version `v` is at least `minv` (major, minor). -/
def versionAtLeast (v minv : Nat × Nat) : Bool :=
  decide (minv.1 < v.1 ∨ (v.1 = minv.1 ∧ minv.2 ≤ v.2))

/-- Modelled from the spec: step 2 of `resolve` — the whole-library link
kind.  With `dynamic-linking` set, the wrapped library is probed and must be
found at a compatible version; otherwise the vendored build is selected with
no probe.  The second component logs the probe calls made. -/
def resolveWhole (flags : List String) (probe : Probe) :
    Except ConfigError (LinkKind × Option String × Option String) × List String :=
  if "dynamic-linking" ∈ flags then
    if (probe wrappedLib).found then
      if versionAtLeast (probe wrappedLib).version wrappedMinVersion then
        (.ok (.dynamicSystem, (probe wrappedLib).libPath,
          (probe wrappedLib).includePath), [wrappedLib])
      else (.error (.incompatibleVersion wrappedLib), [wrappedLib])
    else (.error (.dependencyNotFound wrappedLib), [wrappedLib])
  else (.ok (.vendored, none, none), [])

/-- Modelled from the spec: step 3 of `resolve` for one dependency.  Disabled
dependencies are absent; a force-static sub-flag selects the vendored form
(failing when none exists); a force-dynamic sub-flag requires a successful
probe; with neither sub-flag the registry's default policy applies.  The
second component logs the probe calls made. -/
def resolveDep (flags : List String) (probe : Probe) (d : DepSpec) :
    Except ConfigError PlanEntry × List String :=
  if d.enableFlag ∈ flags then
    if subFlagSet flags d.forceStaticFlag then
      if d.hasVendored then (.ok ⟨d.name, .staticVendored, none⟩, [])
      else (.error (.noVendoredFormAvailable d.name), [])
    else if subFlagSet flags d.forceDynamicFlag then
      if (probe d.name).found then
        (.ok ⟨d.name, .dynamicSystem, (probe d.name).libPath⟩, [d.name])
      else (.error (.dependencyNotFound d.name), [d.name])
    else
      match d.defaultPolicy with
      | .staticPreferred => (.ok ⟨d.name, .staticVendored, none⟩, [])
      | .dynamicPreferred =>
        if (probe d.name).found then
          (.ok ⟨d.name, .dynamicSystem, (probe d.name).libPath⟩, [d.name])
        else if d.hasVendored then (.ok ⟨d.name, .staticVendored, none⟩, [d.name])
        else (.error (.dependencyNotFound d.name), [d.name])
  else (.ok ⟨d.name, .absent, none⟩, [])

/-- Step 3 of `resolve` over the whole registry, stopping at the first
failing dependency, with the accumulated probe log. -/
def resolveDeps (flags : List String) (probe : Probe) :
    List DepSpec → Except ConfigError (List PlanEntry) × List String
  | [] => (.ok [], [])
  | d :: ds =>
    match resolveDep flags probe d with
    | (.error e, log) => (.error e, log)
    | (.ok entry, log) =>
      match resolveDeps flags probe ds with
      | (.error e, log2) => (.error e, log ++ log2)
      | (.ok entries, log2) => (.ok (entry :: entries), log ++ log2)

/-- Modelled from the spec: `resolve(flags, registryOutput, probeResults)`
instrumented with the list of probe calls it makes — validation first, then
the whole-library link kind, then the per-dependency Link Decisions. -/
def resolveT (registry : List DepSpec) (flags : List String) (probe : Probe) :
    Except ConfigError BuildPlan × List String :=
  match validateFlags registry flags with
  | some e => (.error e, [])
  | none =>
    match resolveWhole flags probe with
    | (.error e, log) => (.error e, log)
    | (.ok (kind, libPath, incPath), log1) =>
      match resolveDeps flags probe registry with
      | (.error e, log2) => (.error e, log1 ++ log2)
      | (.ok entries, log2) =>
        (.ok { wholeLinkKind := kind, wholeLibPath := libPath,
               includePaths := incPath.toList, entries := entries },
          log1 ++ log2)

/-- Modelled from the spec: `resolve(flags, registryOutput, probeResults) ->
Result<BuildPlan, ConfigError>` — the resolver's outcome, without the probe
log. -/
def resolve (registry : List DepSpec) (flags : List String) (probe : Probe) :
    Except ConfigError BuildPlan :=
  (resolveT registry flags probe).1

/-! ## Build System Selector (modelled from the spec) -/

/-- Modelled from the spec: the available native build drivers — the no-op
driver, the declarative (CMake) driver and the legacy (mklove) driver. -/
inductive BuildDriver where
  | noop
  | declarative
  | legacy
deriving DecidableEq, Repr

/-- Modelled from the spec: `selectDriver(buildPlan) -> BuildDriver` — with a
dynamic-system link kind no native build driver runs; for a vendored build the
`cmake-build` flag selects the declarative driver, else the legacy one. -/
def selectDriver (plan : BuildPlan) (flags : List String) : BuildDriver :=
  match plan.wholeLinkKind with
  | .dynamicSystem => .noop
  | .vendored => if "cmake-build" ∈ flags then .declarative else .legacy

/-! ## Directive Emitter (modelled from the spec) -/

/-- Modelled from the spec: how a library is linked in a `LinkLibrary`
directive. -/
inductive LibKind where
  | static
  | dynamic
deriving DecidableEq, Repr

/-- Modelled from the spec: one directive of the emitter's output —
`AddIncludePath`, `AddLibrarySearchPath` (tagged with the dependency it is
for), or `LinkLibrary(name, kind)`. -/
inductive Directive where
  | addIncludePath (path : String)
  | addLibrarySearchPath (dep : String) (path : String)
  | linkLibrary (dep : String) (kind : LibKind)
deriving DecidableEq, Repr

/-- Whether a directive is the library-search-path directive for `d`. -/
def Directive.searchFor (d : String) : Directive → Bool
  | .addLibrarySearchPath dep _ => dep == d
  | _ => false

/-- Whether a directive is the `LinkLibrary` directive for `d`. -/
def Directive.linkFor (d : String) : Directive → Bool
  | .linkLibrary dep _ => dep == d
  | _ => false

/-- The dependency a directive concerns, when any. -/
def Directive.owner : Directive → Option String
  | .addIncludePath _ => none
  | .addLibrarySearchPath dep _ => some dep
  | .linkLibrary dep _ => some dep

/-- Modelled from the spec: the directives for one Link Decision — a
dynamic-system decision emits the probed search path (when recorded) before
its `LinkLibrary`; a static-vendored decision emits a static `LinkLibrary`;
an absent dependency is never referenced. -/
def emitEntry (e : PlanEntry) : List Directive :=
  match e.decision with
  | .absent => []
  | .dynamicSystem =>
    (match e.libPath with
     | some p => [Directive.addLibrarySearchPath e.name p]
     | none => []) ++ [Directive.linkLibrary e.name .dynamic]
  | .staticVendored => [Directive.linkLibrary e.name .static]

/-- The directives of a list of Link Decisions, in order. -/
def emitEntries : List PlanEntry → List Directive
  | [] => []
  | e :: es => emitEntry e ++ emitEntries es

/-- The wrapped library itself, viewed as one more plan entry. -/
def BuildPlan.wholeEntry (p : BuildPlan) : PlanEntry :=
  { name := wrappedLib,
    decision := match p.wholeLinkKind with
      | .vendored => .staticVendored
      | .dynamicSystem => .dynamicSystem,
    libPath := p.wholeLibPath }

/-- Modelled from the spec: `emit(buildPlan) -> OrderedList<Directive>` —
include paths first, then the wrapped library's directives, then each Link
Decision's directives in plan order. -/
def emit (p : BuildPlan) : List Directive :=
  p.includePaths.map Directive.addIncludePath ++
    emitEntries (p.wholeEntry :: p.entries)

/-- Two successive invocations of the emitter on the same Build Plan, as the
incremental build orchestration performs them. -/
def emitTwice (p : BuildPlan) : List Directive × List Directive :=
  (emit p, emit p)

/-! ## Claim theorems: mapper and crate root -/

/-- Claim C1: `toErrorKind` is total on the integers — being a function it
assigns every integer exactly one `ErrorKind` — and it returns the catch-all
variant exactly for the codes outside the fixed catalog: a catalog code gets a
non-catch-all variant, any other code degrades to the catch-all rather than
failing. -/
theorem toErrorKind_catchAll_iff (catalog : List Int) (code : Int) :
    (∃! k : ErrorKind, toErrorKind catalog code = k) ∧
      ((toErrorKind catalog code).isCatchAll = true ↔ code ∉ catalog) := by
  refine ⟨⟨toErrorKind catalog code, rfl, fun y hy => hy.symm⟩, ?_⟩
  by_cases h : code ∈ catalog <;> simp [toErrorKind, h, ErrorKind.isCatchAll]

/-- Claim C9: for each optional native dependency, the crate declares the
corresponding extern crate if and only if the matching feature flag is
enabled; with a flag off, the compiled crate declares no reference to that
sys crate. -/
theorem externCrates_iff (features : List String) :
    ("openssl_sys" ∈ externCrates features ↔ "openssl-sys" ∈ features) ∧
      ("sasl2_sys" ∈ externCrates features ↔ "sasl2-sys" ∈ features) ∧
        ("libz_sys" ∈ externCrates features ↔ "libz-sys" ∈ features) ∧
          ("zstd_sys" ∈ externCrates features ↔ "zstd-sys" ∈ features) ∧
            ("lz4_sys" ∈ externCrates features ↔ "lz4-sys" ∈ features) := by
  by_cases h1 : "openssl-sys" ∈ features <;>
    by_cases h2 : "sasl2-sys" ∈ features <;>
      by_cases h3 : "libz-sys" ∈ features <;>
        by_cases h4 : "zstd-sys" ∈ features <;>
          by_cases h5 : "lz4-sys" ∈ features <;>
            simp [externCrates, h1, h2, h3, h4, h5]

/-- Claim C10: every public item of the `bindings`, `helpers` and `types`
modules is re-exported at the crate root — when the three modules bind
pairwise distinct names, the crate-root path and the module path denote the
same definition — and the crate root surface names exactly the union of the
three modules' names. -/
theorem crateRoot_reexports (bindings helpers types : Surface)
    (hnd : ((bindings ++ helpers ++ types).map Prod.fst).Nodup) :
    (∀ n d, findItem (crateRoot bindings helpers types) n = some d ↔
        (findItem bindings n = some d ∨ findItem helpers n = some d ∨
          findItem types n = some d)) ∧
      (∀ n, n ∈ (crateRoot bindings helpers types).map Prod.fst ↔
        (n ∈ bindings.map Prod.fst ∨ n ∈ helpers.map Prod.fst ∨
          n ∈ types.map Prod.fst)) := by
  simp only [List.map_append, List.nodup_append] at hnd
  obtain ⟨⟨hb, hh, hbh⟩, ht, hbht⟩ := hnd
  constructor
  · intro n d
    constructor
    · intro h
      rw [crateRoot, findItem_append, findItem_append] at h
      cases hfb : findItem bindings n with
      | some v =>
        simp only [hfb] at h
        exact .inl h
      | none =>
        simp only [hfb] at h
        cases hfh : findItem helpers n with
        | some v =>
          simp only [hfh] at h
          exact .inr (.inl h)
        | none =>
          simp only [hfh] at h
          exact .inr (.inr h)
    · intro h
      rw [crateRoot, findItem_append, findItem_append]
      rcases h with hb2 | hh2 | ht2
      · simp [hb2]
      · have hnb : n ∉ bindings.map Prod.fst := by
          intro hmem
          exact hbh hmem (findItem_some_imp_mem _ _ _ hh2)
        simp [findItem_eq_none_of_not_mem _ _ hnb, hh2]
      · have hnt := findItem_some_imp_mem _ _ _ ht2
        have hnb : n ∉ bindings.map Prod.fst := by
          intro hmem
          exact hbht (List.mem_append_left _ hmem) hnt
        have hnh : n ∉ helpers.map Prod.fst := by
          intro hmem
          exact hbht (List.mem_append_right _ hmem) hnt
        simp [findItem_eq_none_of_not_mem _ _ hnb,
          findItem_eq_none_of_not_mem _ _ hnh, ht2]
  · intro n
    simp [crateRoot]

/-- Witness for C10 at a concrete crate surface: one item per module, all
names distinct, checked at the item of the `helpers` module. -/
theorem crateRoot_reexports_witness :
    (∀ n d,
        findItem (crateRoot [("rd_kafka_new", 0)]
            [("primive_to_rd_kafka_resp_err_t", 1)] [("RDKafkaRespErr", 2)]) n =
          some d ↔
        (findItem [("rd_kafka_new", 0)] n = some d ∨
          findItem [("primive_to_rd_kafka_resp_err_t", 1)] n = some d ∨
            findItem [("RDKafkaRespErr", 2)] n = some d)) ∧
      (∀ n, n ∈ (crateRoot [("rd_kafka_new", 0)]
            [("primive_to_rd_kafka_resp_err_t", 1)]
            [("RDKafkaRespErr", 2)]).map Prod.fst ↔
        (n ∈ [("rd_kafka_new", 0)].map Prod.fst ∨
          n ∈ [("primive_to_rd_kafka_resp_err_t", 1)].map Prod.fst ∨
            n ∈ [("RDKafkaRespErr", 2)].map Prod.fst)) :=
  crateRoot_reexports [("rd_kafka_new", 0)]
    [("primive_to_rd_kafka_resp_err_t", 1)] [("RDKafkaRespErr", 2)] (by decide)

/-! ## Demonstration inputs shared by the witnesses -/

/-- An environment snapshot in which no dependency is installed. -/
def noProbe : Probe :=
  fun _ => { found := false, version := (0, 0), includePath := none, libPath := none }

/-- An environment snapshot in which every dependency is installed at
version 3.0. -/
def foundProbe : Probe :=
  fun _ => { found := true, version := (3, 0), includePath := some "/usr/include",
             libPath := some "/usr/lib" }

/-- A hypothetical registry row whose dependency carries both a force-static
and a force-dynamic sub-flag. -/
def demoDep : DepSpec :=
  { name := "openssl", enableFlag := "ssl", forceStaticFlag := some "ssl-vendored",
    forceDynamicFlag := some "ssl-system", defaultPolicy := .dynamicPreferred,
    hasVendored := true }

/-- A one-row registry built from `demoDep`. -/
def demoRegistry : List DepSpec := [demoDep]

/-- A Build Plan linking both the wrapped library and OpenSSL dynamically. -/
def demoPlan : BuildPlan :=
  { wholeLinkKind := .dynamicSystem, wholeLibPath := some "/usr/lib",
    includePaths := ["/usr/include"],
    entries := [{ name := "openssl", decision := .dynamicSystem,
                  libPath := some "/ssl/lib" }] }

/-! ## Helper lemmas about the probe log -/

theorem resolveDep_log_subset (flags : List String) (probe : Probe)
    (d : DepSpec) (x : String) (hx : x ∈ (resolveDep flags probe d).2) :
    x = d.name := by
  unfold resolveDep at hx
  repeat' split at hx
  all_goals simp_all

theorem resolveDeps_log_subset (flags : List String) (probe : Probe)
    (ds : List DepSpec) (x : String)
    (hx : x ∈ (resolveDeps flags probe ds).2) : x ∈ ds.map DepSpec.name := by
  induction ds with
  | nil => simp [resolveDeps] at hx
  | cons d rest ih =>
    unfold resolveDeps at hx
    cases hdep : resolveDep flags probe d with
    | mk res log =>
      rw [hdep] at hx
      cases res with
      | error e =>
        have hx2 : x ∈ log := hx
        have := resolveDep_log_subset flags probe d x (by rw [hdep]; exact hx2)
        simp [this]
      | ok entry =>
        cases hrest : resolveDeps flags probe rest with
        | mk res2 log2 =>
          rw [hrest] at hx
          have hx2 : x ∈ log ++ log2 := by
            cases res2 <;> exact hx
          rcases List.mem_append.mp hx2 with h1 | h1
          · have := resolveDep_log_subset flags probe d x (by rw [hdep]; exact h1)
            simp [this]
          · have := ih (by rw [hrest]; exact h1)
            simp [this]

/-! ## Claim theorems: resolver and selector -/

/-- Claim C2: the resolver is total and deterministic — for every flag set
that passes registry validation, applied to registry output and probe
results, `resolve` returns exactly one value, which is either a Build Plan or
a ConfigError, and two runs on the same inputs return the same result. -/
theorem resolve_total_deterministic (registry : List DepSpec)
    (flags : List String) (probe : Probe)
    (hv : validateFlags registry flags = none) :
    (∃! r : Except ConfigError BuildPlan, resolve registry flags probe = r) ∧
      ((∃ plan, resolve registry flags probe = .ok plan) ∨
        (∃ e, resolve registry flags probe = .error e)) := by
  refine ⟨⟨resolve registry flags probe, rfl, fun y hy => hy.symm⟩, ?_⟩
  cases h : resolve registry flags probe with
  | ok plan => exact .inl ⟨plan, rfl⟩
  | error e => exact .inr ⟨e, rfl⟩

/-- Witness for C2 at the flag set `{zstd}` against the fixed registry, with
an empty environment. -/
theorem resolve_total_deterministic_witness :
    validateFlags fixedRegistry ["zstd"] = none ∧
      ((∃! r : Except ConfigError BuildPlan,
          resolve fixedRegistry ["zstd"] noProbe = r) ∧
        ((∃ plan, resolve fixedRegistry ["zstd"] noProbe = .ok plan) ∨
          (∃ e, resolve fixedRegistry ["zstd"] noProbe = .error e))) :=
  ⟨by decide, resolve_total_deterministic fixedRegistry ["zstd"] noProbe (by decide)⟩

/-- Claim C3: whichever dependency it is, a flag set enabling both that
dependency's force-static and force-dynamic sub-flags makes `resolve` return
`ConflictingFlags`, and the error is raised before any probing: the probe log
is empty. -/
theorem resolve_conflicting_subflags (registry : List DepSpec)
    (flags : List String) (probe : Probe) (d : DepSpec) (fs fd : String)
    (hd : d ∈ registry) (hfs : d.forceStaticFlag = some fs)
    (hfd : d.forceDynamicFlag = some fd)
    (hfs2 : fs ∈ flags) (hfd2 : fd ∈ flags) :
    ∃ dep, resolveT registry flags probe = (.error (.conflictingFlags dep), []) := by
  have hc : hasConflict d flags = true := by
    simp only [hasConflict, hfs, hfd, Bool.and_eq_true, List.contains]
    exact ⟨List.elem_iff.mpr hfs2, List.elem_iff.mpr hfd2⟩
  have hsome : (registry.find? (fun d => hasConflict d flags)).isSome :=
    List.find?_isSome.mpr ⟨d, hd, hc⟩
  cases hfind : registry.find? (fun d => hasConflict d flags) with
  | none => rw [hfind] at hsome; simp at hsome
  | some d0 =>
    refine ⟨d0.name, ?_⟩
    simp [resolveT, validateFlags, hfind]

/-- Witness for C3 at a registry row carrying both sub-flags, with both
enabled. -/
theorem resolve_conflicting_subflags_witness :
    demoDep ∈ demoRegistry ∧
      (∃ dep, resolveT demoRegistry ["ssl-vendored", "ssl-system"] noProbe =
        (.error (.conflictingFlags dep), [])) :=
  ⟨by decide,
    resolve_conflicting_subflags demoRegistry ["ssl-vendored", "ssl-system"]
      noProbe demoDep "ssl-vendored" "ssl-system" (by decide) rfl rfl
      (by decide) (by decide)⟩

/-- Claim C4: with the `dynamic-linking` flag unset, every Build Plan the
resolver produces has the vendored whole-library link kind, whatever the
probe results are, and the wrapped library is never probed. -/
theorem resolve_dynamic_linking_unset (registry : List DepSpec)
    (flags : List String) (probe : Probe)
    (hdl : "dynamic-linking" ∉ flags)
    (hlr : wrappedLib ∉ registry.map DepSpec.name) :
    (∀ plan, resolve registry flags probe = .ok plan →
        plan.wholeLinkKind = .vendored) ∧
      wrappedLib ∉ (resolveT registry flags probe).2 := by
  have hwhole : resolveWhole flags probe = (.ok (.vendored, none, none), []) := by
    simp [resolveWhole, hdl]
  constructor
  · intro plan hplan
    unfold resolve resolveT at hplan
    cases hval : validateFlags registry flags with
    | some e => rw [hval] at hplan; simp at hplan
    | none =>
      rw [hval, hwhole] at hplan
      cases hdeps : resolveDeps flags probe registry with
      | mk res2 log2 =>
        rw [hdeps] at hplan
        cases res2 with
        | error e => simp at hplan
        | ok entries =>
          simp at hplan
          rw [← hplan]
  · unfold resolveT
    cases hval : validateFlags registry flags with
    | some e => simp
    | none =>
      rw [hwhole]
      cases hdeps : resolveDeps flags probe registry with
      | mk res2 log2 =>
        have hsub : ∀ x, x ∈ log2 → x ∈ registry.map DepSpec.name := by
          intro x hx
          exact resolveDeps_log_subset flags probe registry x (by rw [hdeps]; exact hx)
        cases res2 with
        | error e =>
          simp only [List.nil_append]
          intro hmem
          exact hlr (hsub _ hmem)
        | ok entries =>
          simp only [List.nil_append]
          intro hmem
          exact hlr (hsub _ hmem)

/-- Witness for C4 at the flag set `{libz}` against the fixed registry, with
an empty environment. -/
theorem resolve_dynamic_linking_unset_witness :
    ("dynamic-linking" ∉ ["libz"]) ∧
      (wrappedLib ∉ fixedRegistry.map DepSpec.name) ∧
      ((∀ plan, resolve fixedRegistry ["libz"] noProbe = .ok plan →
          plan.wholeLinkKind = .vendored) ∧
        wrappedLib ∉ (resolveT fixedRegistry ["libz"] noProbe).2) :=
  ⟨by decide, by decide,
    resolve_dynamic_linking_unset fixedRegistry ["libz"] noProbe
      (by decide) (by decide)⟩

/-- Claim C5: with neither sub-flag set, `resolve` applies the dependency's
hardcoded default policy from the registry: for the flag set `{zstd}` the
Link Decision for zstd is static-vendored and no probe call at all is made,
while for `{ssl}` the default makes the OpenSSL decision dynamic-system
(here under a probe that finds the system OpenSSL). -/
theorem resolve_default_policy (probe : Probe)
    (hssl : (probe "openssl").found = true) :
    (resolveT fixedRegistry ["zstd"] probe).2 = [] ∧
      (∃ plan, resolve fixedRegistry ["zstd"] probe = .ok plan ∧
        plan.decisionFor "zstd" = some .staticVendored) ∧
      (∀ plan, resolve fixedRegistry ["ssl"] probe = .ok plan →
        plan.decisionFor "openssl" = some .dynamicSystem) := by
  refine ⟨rfl, ⟨_, rfl, rfl⟩, ?_⟩
  intro plan hplan
  cases hp : probe "openssl" with
  | mk fnd ver inc lib =>
    rw [hp] at hssl
    simp at hssl
    subst hssl
    have key : resolve fixedRegistry ["ssl"] probe = .ok
        { wholeLinkKind := .vendored, wholeLibPath := none, includePaths := [],
          entries := [⟨"openssl", .dynamicSystem, lib⟩, ⟨"libsasl2", .absent, none⟩,
            ⟨"zlib", .absent, none⟩, ⟨"zstd", .absent, none⟩,
            ⟨"lz4", .absent, none⟩] } := by
      simp only [resolve, resolveT, validateFlags, resolveWhole, fixedRegistry,
        resolveDeps, resolveDep, knownFlags, depFlags, hasConflict, subFlagSet]
      simp [hp]
    rw [key] at hplan
    simp at hplan
    rw [← hplan]
    rfl

/-- Witness for C5 under an environment in which every dependency is
installed. -/
theorem resolve_default_policy_witness :
    (foundProbe "openssl").found = true ∧
      ((resolveT fixedRegistry ["zstd"] foundProbe).2 = [] ∧
        (∃ plan, resolve fixedRegistry ["zstd"] foundProbe = .ok plan ∧
          plan.decisionFor "zstd" = some .staticVendored) ∧
        (∀ plan, resolve fixedRegistry ["ssl"] foundProbe = .ok plan →
          plan.decisionFor "openssl" = some .dynamicSystem)) :=
  ⟨rfl, resolve_default_policy foundProbe rfl⟩

/-- Claim C6: `selectDriver` is a pure function of the whole-library link
kind and the `cmake-build` flag — two plans with the same link kind and flag
sets agreeing on `cmake-build` select the same driver — returning the no-op
driver for a dynamic-system link kind, and for a vendored link kind the
declarative driver when `cmake-build` is set and the legacy driver
otherwise. -/
theorem selectDriver_pure (p q : BuildPlan) (flags gflags : List String)
    (hk : p.wholeLinkKind = q.wholeLinkKind)
    (hc : ("cmake-build" ∈ flags) ↔ ("cmake-build" ∈ gflags)) :
    selectDriver p flags = selectDriver q gflags ∧
      (p.wholeLinkKind = .dynamicSystem → selectDriver p flags = .noop) ∧
      (p.wholeLinkKind = .vendored →
        selectDriver p flags =
          if "cmake-build" ∈ flags then .declarative else .legacy) := by
  unfold selectDriver
  rw [← hk]
  cases hpk : p.wholeLinkKind with
  | dynamicSystem => simp
  | vendored =>
    by_cases hm : "cmake-build" ∈ flags
    · have hm2 : "cmake-build" ∈ gflags := hc.mp hm
      simp [hm, hm2]
    · have hm2 : "cmake-build" ∉ gflags := fun h => hm (hc.mpr h)
      simp [hm, hm2]

/-- Witness for C6 at the demonstration plan, compared with itself under
empty flag sets. -/
theorem selectDriver_pure_witness :
    demoPlan.wholeLinkKind = demoPlan.wholeLinkKind ∧
      (selectDriver demoPlan [] = selectDriver demoPlan [] ∧
        (demoPlan.wholeLinkKind = .dynamicSystem →
          selectDriver demoPlan [] = .noop) ∧
        (demoPlan.wholeLinkKind = .vendored →
          selectDriver demoPlan [] =
            if "cmake-build" ∈ ([] : List String) then .declarative else .legacy)) :=
  ⟨rfl, selectDriver_pure demoPlan demoPlan [] [] rfl Iff.rfl⟩

/-! ## Helper lemmas for the emitter's ordering invariant -/

theorem searchFor_owner (d : String) (dir : Directive)
    (h : dir.searchFor d = true) : dir.owner = some d := by
  cases dir <;> simp [Directive.searchFor] at h <;> simp [Directive.owner, h]

theorem linkFor_owner (d : String) (dir : Directive)
    (h : dir.linkFor d = true) : dir.owner = some d := by
  cases dir <;> simp [Directive.linkFor] at h <;> simp [Directive.owner, h]

theorem emitEntry_owner (e : PlanEntry) (dir : Directive)
    (h : dir ∈ emitEntry e) : dir.owner = some e.name := by
  obtain ⟨nm, dec, lp⟩ := e
  cases dec with
  | absent => simp [emitEntry] at h
  | staticVendored =>
    simp [emitEntry] at h
    simp [h, Directive.owner]
  | dynamicSystem =>
    cases lp with
    | none =>
      simp [emitEntry] at h
      simp [h, Directive.owner]
    | some p =>
      simp [emitEntry] at h
      rcases h with h | h <;> simp [h, Directive.owner]

theorem emitEntries_owner (es : List PlanEntry) (dir : Directive)
    (h : dir ∈ emitEntries es) : ∃ e, e ∈ es ∧ dir.owner = some e.name := by
  induction es with
  | nil => simp [emitEntries] at h
  | cons e rest ih =>
    simp only [emitEntries] at h
    rcases List.mem_append.mp h with h1 | h1
    · exact ⟨e, List.mem_cons_self e rest, emitEntry_owner e dir h1⟩
    · obtain ⟨e2, he2, ho⟩ := ih h1
      exact ⟨e2, List.mem_cons_of_mem e he2, ho⟩

theorem emitEntry_search_before_link (e : PlanEntry) (d : String) (i j : Nat)
    (hi : i < (emitEntry e).length) (hj : j < (emitEntry e).length)
    (hs : ((emitEntry e)[i]).searchFor d = true)
    (hl : ((emitEntry e)[j]).linkFor d = true) : i < j := by
  obtain ⟨nm, dec, lp⟩ := e
  cases dec with
  | absent => simp [emitEntry] at hi
  | staticVendored =>
    simp only [emitEntry] at hi hs
    have hi0 : i = 0 := by simpa using hi
    subst hi0
    simp [Directive.searchFor] at hs
  | dynamicSystem =>
    cases lp with
    | none =>
      simp only [emitEntry] at hi hs
      have hi0 : i = 0 := by simpa using hi
      subst hi0
      simp [Directive.searchFor] at hs
    | some p =>
      simp only [emitEntry] at hi hj hs hl
      have hi2 : i < 2 := by simpa using hi
      have hj2 : j < 2 := by simpa using hj
      have hi01 : i = 0 ∨ i = 1 := by omega
      have hj01 : j = 0 ∨ j = 1 := by omega
      rcases hi01 with rfl | rfl
      · rcases hj01 with rfl | rfl
        · simp [Directive.linkFor] at hl
        · omega
      · simp [Directive.searchFor] at hs

theorem emitEntries_search_before_link : ∀ (es : List PlanEntry) (d : String),
    (es.map PlanEntry.name).Nodup → ∀ (i j : Nat)
    (hi : i < (emitEntries es).length) (hj : j < (emitEntries es).length),
    ((emitEntries es)[i]).searchFor d = true →
    ((emitEntries es)[j]).linkFor d = true → i < j := by
  intro es
  induction es with
  | nil =>
    intro d hnd i j hi
    simp [emitEntries] at hi
  | cons e rest ih =>
    intro d hnd i j hi hj hs hl
    simp only [emitEntries] at hi hj hs hl
    simp only [List.map_cons, List.nodup_cons] at hnd
    obtain ⟨hne, hndr⟩ := hnd
    have hlen : i < (emitEntry e).length + (emitEntries rest).length := by
      simpa [List.length_append] using hi
    have hlenj : j < (emitEntry e).length + (emitEntries rest).length := by
      simpa [List.length_append] using hj
    by_cases hib : i < (emitEntry e).length
    · by_cases hjb : j < (emitEntry e).length
      · have hs2 : ((emitEntry e)[i]).searchFor d = true := by
          rw [List.getElem_append_left hib] at hs
          exact hs
        have hl2 : ((emitEntry e)[j]).linkFor d = true := by
          rw [List.getElem_append_left hjb] at hl
          exact hl
        exact emitEntry_search_before_link e d i j hib hjb hs2 hl2
      · omega
    · have hige : (emitEntry e).length ≤ i := by omega
      have hi2 : i - (emitEntry e).length < (emitEntries rest).length := by omega
      have hs2 : ((emitEntries rest)[i - (emitEntry e).length]).searchFor d = true := by
        rw [List.getElem_append_right hige] at hs
        exact hs
      by_cases hjb : j < (emitEntry e).length
      · exfalso
        have hl2 : ((emitEntry e)[j]).linkFor d = true := by
          rw [List.getElem_append_left hjb] at hl
          exact hl
        have ho1 : ((emitEntry e)[j]).owner = some e.name :=
          emitEntry_owner e _ (List.getElem_mem hjb)
        have ho2 : ((emitEntry e)[j]).owner = some d := linkFor_owner d _ hl2
        have hde : d = e.name := by
          rw [ho1] at ho2
          exact (Option.some_inj.mp ho2).symm
        obtain ⟨e2, he2, hoe2⟩ := emitEntries_owner rest _ (List.getElem_mem hi2)
        have ho3 : ((emitEntries rest)[i - (emitEntry e).length]).owner = some d :=
          searchFor_owner d _ hs2
        have hde2 : e2.name = d := by
          rw [hoe2] at ho3
          exact Option.some_inj.mp ho3
        apply hne
        have hee : e2.name = e.name := hde2.trans hde
        rw [← hee]
        exact List.mem_map_of_mem PlanEntry.name he2
      · have hjge : (emitEntry e).length ≤ j := by omega
        have hj2 : j - (emitEntry e).length < (emitEntries rest).length := by omega
        have hl2 : ((emitEntries rest)[j - (emitEntry e).length]).linkFor d = true := by
          rw [List.getElem_append_right hjge] at hl
          exact hl
        have := ih d hndr (i - (emitEntry e).length) (j - (emitEntry e).length)
          hi2 hj2 hs2 hl2
        omega

/-- Claim C7: in every directive list produced by `emit` (over plan entries
with distinct dependency names), whenever a dependency has both a
library-search-path directive and a `LinkLibrary` directive, the
`AddLibrarySearchPath` directive occurs at an earlier position than the
`LinkLibrary` directive. -/
theorem emit_search_before_link (p : BuildPlan) (d : String) (i j : Nat)
    (hnd : ((p.wholeEntry :: p.entries).map PlanEntry.name).Nodup)
    (hi : i < (emit p).length) (hj : j < (emit p).length)
    (hs : ((emit p).get ⟨i, hi⟩).searchFor d = true)
    (hl : ((emit p).get ⟨j, hj⟩).linkFor d = true) : i < j := by
  simp only [List.get_eq_getElem] at hs hl
  unfold emit at hi hj hs hl
  have hlen : i < (p.includePaths.map Directive.addIncludePath).length +
      (emitEntries (p.wholeEntry :: p.entries)).length := by
    simpa [List.length_append] using hi
  have hlenj : j < (p.includePaths.map Directive.addIncludePath).length +
      (emitEntries (p.wholeEntry :: p.entries)).length := by
    simpa [List.length_append] using hj
  have hpre : ∀ (k : Nat) (hk : k < (p.includePaths.map Directive.addIncludePath).length),
      ((p.includePaths.map Directive.addIncludePath)[k]).owner = none := by
    intro k hk
    rw [List.getElem_map]
    rfl
  have hige : (p.includePaths.map Directive.addIncludePath).length ≤ i := by
    by_contra hc
    push_neg at hc
    rw [List.getElem_append_left hc] at hs
    have := searchFor_owner d _ hs
    rw [hpre i hc] at this
    exact Option.noConfusion this
  have hjge : (p.includePaths.map Directive.addIncludePath).length ≤ j := by
    by_contra hc
    push_neg at hc
    rw [List.getElem_append_left hc] at hl
    have := linkFor_owner d _ hl
    rw [hpre j hc] at this
    exact Option.noConfusion this
  have hi2 : i - (p.includePaths.map Directive.addIncludePath).length <
      (emitEntries (p.wholeEntry :: p.entries)).length := by omega
  have hj2 : j - (p.includePaths.map Directive.addIncludePath).length <
      (emitEntries (p.wholeEntry :: p.entries)).length := by omega
  have hs2 := hs
  rw [List.getElem_append_right hige] at hs2
  have hl2 := hl
  rw [List.getElem_append_right hjge] at hl2
  have := emitEntries_search_before_link (p.wholeEntry :: p.entries) d hnd
    (i - (p.includePaths.map Directive.addIncludePath).length)
    (j - (p.includePaths.map Directive.addIncludePath).length) hi2 hj2 hs2 hl2
  omega

/-- Witness for C7 at the demonstration plan: OpenSSL's search-path directive
sits at position 3 of the emitted list, before its LinkLibrary directive at
position 4. -/
theorem emit_search_before_link_witness :
    ((demoPlan.wholeEntry :: demoPlan.entries).map PlanEntry.name).Nodup ∧
      ((emit demoPlan).get ⟨3, by decide⟩).searchFor "openssl" = true ∧
      ((emit demoPlan).get ⟨4, by decide⟩).linkFor "openssl" = true ∧
      3 < 4 :=
  ⟨by decide, by decide, by decide,
    emit_search_before_link demoPlan "openssl" 3 4 (by decide) (by decide)
      (by decide) (by decide) (by decide)⟩

/-- Claim C8: the emitter is idempotent — two invocations of `emit` on the
same Build Plan produce identical, order-stable directive lists; in this
embedding `emit` is a pure function of the plan, so the two components of
`emitTwice` coincide definitionally. -/
theorem emit_idempotent (p : BuildPlan) : (emitTwice p).1 = (emitTwice p).2 := rfl

end RdkafkaSys
